import Mathlib

/-!
Verification of the request-serialization core of `src/background/model/background-app.ts`
(class `TaskQueue`, class `BackgroundApp` and its per-command ipc handlers).

The TypeScript source is embedded shallowly:

* `TaskQueue` keeps a JS array `queue` (`unshift` adds at the head, `pop` removes
  from the tail).  `push` unshifts the task and calls `next()` exactly when the
  array length is 1 afterwards; `next()` pops a task and, if one was present,
  starts it, attaching `() => this.next()` as both the fulfillment and the
  rejection continuation.
* Tasks are opaque promises; the environment decides when a running task
  settles and whether it resolves or rejects.  We model an execution as a list
  of external events (a UI command pushing a task; a running task settling)
  and fold a step function over it.  Ghost fields (`running`, `started`,
  `settledLog`, `signals`) record the observable history; the `queue` field is
  exactly the source's backlog array.
* Each command handler's reply continuation (the function passed to `.then` on
  the worker round trip) is embedded as a pure function from the relevant
  field of the typed worker reply to the list of signals it emits via the
  `success` / `error` helpers.  JS truthiness on reply fields is modelled by
  `truthy` on a JS value type.
-/

/-- One external event of a queue execution: a UI command pushes a fresh task,
or a previously started (dispatched, unsettled) task settles; `ok = true`
models a resolved task promise, `ok = false` a rejected one. -/
inductive Ev where
  | push (tid : Nat)
  | settle (tid : Nat) (ok : Bool)
deriving DecidableEq, Repr

/-- The `TaskQueue` state.  `queue` is the source's backlog array (head of the
list = index 0 of the JS array, so `unshift` is `cons` and `pop` removes the
last element).  The remaining fields are ghost observation logs:
`running` lists tasks started and not yet settled, in dispatch order;
`started` is the full dispatch history; `settledLog` the settlement history;
`signals` records, in order, the tasks whose reply continuation ran
(i.e. whose round trip resolved) and hence emitted its UI signal. -/
structure TaskQueue where
  queue : List Nat
  running : List Nat
  started : List Nat
  settledLog : List Nat
  signals : List Nat
deriving DecidableEq, Repr

/-- `private next()`: `const task = this.queue.pop(); if (task) { task().then(() => this.next(), () => this.next()); }`.
Popping takes the last array element; starting the task adds it to the ghost
`running` and `started` logs.  The attached continuations fire later, at the
task's settlement event. -/
def TaskQueue.next (s : TaskQueue) : TaskQueue :=
  match s.queue.getLast? with
  | some t =>
      { s with
        queue := s.queue.dropLast
        running := s.running ++ [t]
        started := s.started ++ [t] }
  | none => s

/-- `push(task)`: `this.queue.unshift(task); if (this.queue.length === 1) { this.next(); }`. -/
def TaskQueue.push (t : Nat) (s : TaskQueue) : TaskQueue :=
  let s1 : TaskQueue := { s with queue := t :: s.queue }
  if s1.queue.length = 1 then s1.next else s1

/-- Settlement of a running task `t`.  The task's own reply continuation runs
first (emitting its signal when the round trip resolved — the handlers attach
only a fulfillment callback, so a rejected round trip emits nothing), then the
queue's continuation `() => this.next()` runs; it was attached for both
fulfillment and rejection, so the queue advances either way. -/
def TaskQueue.onSettle (t : Nat) (ok : Bool) (s : TaskQueue) : TaskQueue :=
  let s1 : TaskQueue :=
    { s with
      running := s.running.erase t
      settledLog := s.settledLog ++ [t]
      signals := if ok then s.signals ++ [t] else s.signals }
  s1.next

/-- The queue created by `new TaskQueue()`: empty backlog, nothing started. -/
def TaskQueue.init : TaskQueue := ⟨[], [], [], [], []⟩

/-- One external event applied to a queue state. -/
def TaskQueue.step (s : TaskQueue) : Ev → TaskQueue
  | .push t => s.push t
  | .settle t ok => s.onSettle t ok

/-- Run an event list from the initial queue. -/
def TaskQueue.run (es : List Ev) : TaskQueue :=
  es.foldl TaskQueue.step TaskQueue.init

/-- An event list is a legitimate execution when every pushed task id is fresh
and every settle event settles a task that is currently running (started and
not yet settled). -/
def validAux (s : TaskQueue) : List Ev → Bool
  | [] => true
  | e :: es =>
      (match e with
       | .push t => !(s.started.contains t) && !(s.queue.contains t) && !(s.running.contains t)
       | .settle t _ => s.running.contains t) && validAux (s.step e) es

/-- Validity of an event list from the initial queue. -/
def validEvents (es : List Ev) : Bool := validAux TaskQueue.init es

/-- Claim C1 (code bug): on the valid execution that pushes task 0 and then,
before task 0 settles, pushes task 1, the queue dispatches task 1 immediately:
both tasks are running simultaneously while neither has settled, violating
mutual exclusion.  (`next()` pops the task before running it, so the backlog
is empty while a task is in flight and the `length === 1` test in `push`
fires again.) -/
theorem taskQueue_mutual_exclusion_bug :
    validEvents [Ev.push 0, Ev.push 1] = true ∧
    (TaskQueue.run [Ev.push 0, Ev.push 1]).running = [0, 1] ∧
    (TaskQueue.run [Ev.push 0, Ev.push 1]).settledLog = [] := by
  decide

/-- Claim C2 (code bug): on the valid execution push 0, push 1, task 1
settles, task 0 settles — possible because task 1 was (wrongly) dispatched
while task 0 was still in flight — the tasks settle, and their UI signals are
emitted, in the order 1, 0: the reverse of the push order.  FIFO settlement
fails. -/
theorem taskQueue_fifo_bug :
    validEvents [Ev.push 0, Ev.push 1, Ev.settle 1 true, Ev.settle 0 true] = true ∧
    (TaskQueue.run [Ev.push 0, Ev.push 1, Ev.settle 1 true, Ev.settle 0 true]).settledLog = [1, 0] ∧
    (TaskQueue.run [Ev.push 0, Ev.push 1, Ev.settle 1 true, Ev.settle 0 true]).signals = [1, 0] := by
  decide

/-- On an empty backlog, a push immediately dispatches the pushed task and
leaves the backlog empty again. -/
theorem TaskQueue.push_of_queue_nil (t : Nat) (s : TaskQueue) (h : s.queue = []) :
    (s.push t).queue = [] ∧ (s.push t).started = s.started ++ [t] := by
  simp [TaskQueue.push, TaskQueue.next, h]

/-- On an empty backlog, a settlement leaves the backlog empty and the
dispatch history unchanged. -/
theorem TaskQueue.onSettle_of_queue_nil (t : Nat) (ok : Bool) (s : TaskQueue) (h : s.queue = []) :
    (s.onSettle t ok).queue = [] ∧ (s.onSettle t ok).started = s.started := by
  simp [TaskQueue.onSettle, TaskQueue.next, h]

/-- Folded over any event list from a state with empty backlog, the backlog
stays empty and every task that is already dispatched, or pushed by the
events, ends up dispatched.  (The backlog is empty between any two events of
this queue: tasks are popped at dispatch time, so draining never waits on a
failure — or on anything else.) -/
theorem TaskQueue.run_started_of_mem (es : List Ev) :
    ∀ s : TaskQueue, s.queue = [] →
      (es.foldl TaskQueue.step s).queue = [] ∧
      ∀ t : Nat, (t ∈ s.started ∨ Ev.push t ∈ es) →
        t ∈ (es.foldl TaskQueue.step s).started := by
  induction es with
  | nil =>
      intro s hq
      refine ⟨hq, ?_⟩
      intro t ht
      rcases ht with h | h
      · exact h
      · simp at h
  | cons e es ih =>
      intro s hq
      have hstep : (s.step e).queue = [] ∧
          ∀ t : Nat, (t ∈ s.started ∨ e = Ev.push t) → t ∈ (s.step e).started := by
        cases e with
        | push t0 =>
            obtain ⟨h1, h2⟩ := TaskQueue.push_of_queue_nil t0 s hq
            refine ⟨h1, ?_⟩
            intro t ht
            rcases ht with h | h
            · simp [TaskQueue.step, h2]
              exact Or.inl h
            · simp [TaskQueue.step, h2]
              right
              cases h
              rfl
        | settle t0 ok =>
            obtain ⟨h1, h2⟩ := TaskQueue.onSettle_of_queue_nil t0 ok s hq
            refine ⟨h1, ?_⟩
            intro t ht
            rcases ht with h | h
            · simpa [TaskQueue.step, h2] using h
            · cases h
      obtain ⟨hq1, hs1⟩ := hstep
      obtain ⟨hq2, hs2⟩ := ih (s.step e) hq1
      refine ⟨hq2, ?_⟩
      intro t ht
      apply hs2
      rcases ht with h | h
      · exact Or.inl (hs1 t (Or.inl h))
      · rcases List.mem_cons.mp h with h' | h'
        · exact Or.inl (hs1 t (Or.inr h'.symm))
        · exact Or.inr h'

/-- Claim C3: the queue absorbs task failures.  The rejection continuation
`() => this.next()` is attached to every started task, so the model's
settlement step is total in the rejected case and the queue advances
unconditionally: (i) on every execution, every pushed task is dispatched,
rejections notwithstanding; (ii) on the spec's own scenario — task 0 pushed
and rejecting, task 1 pushed afterwards and resolving — task 1 still executes
and (iii) its signal is emitted; (iv) that scenario is a valid execution. -/
theorem taskQueue_absorbs_failures :
    (∀ (es : List Ev) (t : Nat), Ev.push t ∈ es → t ∈ (TaskQueue.run es).started) ∧
    (TaskQueue.run [Ev.push 0, Ev.settle 0 false, Ev.push 1, Ev.settle 1 true]).started = [0, 1] ∧
    (TaskQueue.run [Ev.push 0, Ev.settle 0 false, Ev.push 1, Ev.settle 1 true]).signals = [1] ∧
    validEvents [Ev.push 0, Ev.settle 0 false, Ev.push 1, Ev.settle 1 true] = true := by
  refine ⟨?_, by decide, by decide, by decide⟩
  intro es t ht
  exact (TaskQueue.run_started_of_mem es TaskQueue.init rfl).2 t (Or.inr ht)

/-- Witness for C3 at a concrete input: task 5, pushed as the only event, is
dispatched. -/
theorem taskQueue_absorbs_failures_witness :
    5 ∈ (TaskQueue.run [Ev.push 5]).started :=
  taskQueue_absorbs_failures.1 [Ev.push 5] 5 (List.mem_singleton.mpr rfl)

/-- JavaScript values as they occur in worker reply fields: `undefined` (also
standing for an absent field), `null`, booleans, numbers, strings, and opaque
non-primitive values (objects, arrays), distinguished by a tag.  Float
specials (NaN) do not occur in the replies modelled here. -/
inductive JsVal where
  | undef
  | nullv
  | boolean (b : Bool)
  | number (n : Int)
  | str (s : String)
  | obj (tag : Nat)
deriving DecidableEq, Repr

/-- JavaScript truthiness: `undefined`, `null`, `false`, `0` and the empty
string are falsy; every other value, in particular every object, is truthy. -/
def truthy : JsVal → Bool
  | .undef => false
  | .nullv => false
  | .boolean b => b
  | .number n => n != 0
  | .str s => s != ""
  | .obj _ => true

/-- `Status` from `shared/ipc-constants`, as used by this file. -/
inductive Status where
  | Success
  | Failure
deriving DecidableEq, Repr

/-- `const success = (sender, msg, payload) => { sender.send(msg, Status.Success, payload); }` —
the emitted signal, with the sender and message channel left implicit (each
handler replies on the channel its command arrived on). -/
def success (payload : JsVal) : Status × JsVal := (Status.Success, payload)

/-- `const error = (sender, msg, payload) => { sender.send(msg, Status.Failure, payload); }`. -/
def error (payload : JsVal) : Status × JsVal := (Status.Failure, payload)

/-- The seven command kinds routed through the task queue (`Message.*` values
whose ipc handlers push a worker round trip). -/
inductive Message where
  | LoadProject
  | PrevState
  | DirectStateTransition
  | GetSymbols
  | GetMetadata
  | GetData
  | ToggleLibs
deriving DecidableEq, Repr

/-- `Message.LoadProject` reply continuation:
`if (data.err) { error(sender, msg, data.err) } else { success(sender, msg, null) }`,
as a function of the reply's `err` field (`undef` when absent). -/
def onLoadProjectReply (err : JsVal) : List (Status × JsVal) :=
  if truthy err then [error err] else [success JsVal.nullv]

/-- `Message.PrevState` reply continuation:
`if (data.available) { success(..., data.available) } else { error(..., data.available) }`. -/
def onPrevStateReply (available : JsVal) : List (Status × JsVal) :=
  if truthy available then [success available] else [error available]

/-- `Message.DirectStateTransition` reply continuation: same shape as
`Message.PrevState`, on the reply's `available` field. -/
def onDirectStateTransitionReply (available : JsVal) : List (Status × JsVal) :=
  if truthy available then [success available] else [error available]

/-- `Message.GetSymbols` reply continuation:
`if (data.symbols) { success(..., data.symbols) }` — no else branch. -/
def onGetSymbolsReply (symbols : JsVal) : List (Status × JsVal) :=
  if truthy symbols then [success symbols] else []

/-- `Message.GetMetadata` reply continuation:
`if (response.data) { success(..., response.data) } else { error(..., null) }`. -/
def onGetMetadataReply (data : JsVal) : List (Status × JsVal) :=
  if truthy data then [success data] else [error JsVal.nullv]

/-- `Message.GetData` reply continuation: same shape as `Message.GetMetadata`. -/
def onGetDataReply (data : JsVal) : List (Status × JsVal) :=
  if truthy data then [success data] else [error JsVal.nullv]

/-- `Message.ToggleLibs` reply continuation:
`.then(() => { success(..., true); })` — ignores the reply value. -/
def onToggleLibsReply (_reply : JsVal) : List (Status × JsVal) :=
  [success (JsVal.boolean true)]

/-- The router: signals emitted by command kind `m`'s handler when its worker
round trip resolves, as a function of the reply field that handler inspects
(`err` / `available` / `symbols` / `data`; ignored for `ToggleLibs`). -/
def onReply : Message → JsVal → List (Status × JsVal)
  | .LoadProject, v => onLoadProjectReply v
  | .PrevState, v => onPrevStateReply v
  | .DirectStateTransition, v => onDirectStateTransitionReply v
  | .GetSymbols, v => onGetSymbolsReply v
  | .GetMetadata, v => onGetMetadataReply v
  | .GetData, v => onGetDataReply v
  | .ToggleLibs, v => onToggleLibsReply v

/-- Signals emitted by command kind `m`'s task at settlement of the worker
round trip: the handlers attach only a fulfillment callback with `.then`, so
a rejected round trip runs no continuation and emits nothing. -/
def onSettlement (m : Message) : Except JsVal JsVal → List (Status × JsVal)
  | .ok v => onReply m v
  | .error _ => []

/-- Claim C4: the load-project handler emits exactly one signal per resolved
reply; an absent or null `err` yields `Success` with payload `null`; an `err`
carrying an error value (a non-empty string or an object, e.g. an `Error`)
yields `Failure` carrying exactly that value. -/
theorem loadProject_reply_mapping :
    (∀ v : JsVal, (onLoadProjectReply v).length = 1) ∧
    onLoadProjectReply JsVal.nullv = [(Status.Success, JsVal.nullv)] ∧
    onLoadProjectReply JsVal.undef = [(Status.Success, JsVal.nullv)] ∧
    (∀ s : String, s ≠ "" → onLoadProjectReply (JsVal.str s) = [(Status.Failure, JsVal.str s)]) ∧
    (∀ tag : Nat, onLoadProjectReply (JsVal.obj tag) = [(Status.Failure, JsVal.obj tag)]) := by
  refine ⟨?_, rfl, rfl, ?_, ?_⟩
  · intro v
    unfold onLoadProjectReply
    by_cases h : truthy v = true <;> simp [h]
  · intro s hs
    simp [onLoadProjectReply, truthy, error, hs]
  · intro tag
    simp [onLoadProjectReply, truthy, error]

/-- Witness for C4 at the spec's example input: reply with `err = "X"` maps to
`Failure("X")`. -/
theorem loadProject_reply_mapping_witness :
    onLoadProjectReply (JsVal.str "X") = [(Status.Failure, JsVal.str "X")] :=
  loadProject_reply_mapping.2.2.2.1 "X" (by decide)

/-- Claim C5: the get-previous-state and transition-to-state handlers agree;
for every resolved reply they emit exactly one signal: `Success` carrying the
`available` value when it is truthy, `Failure` carrying that same (falsy)
value otherwise. -/
theorem availability_reply_mapping :
    (∀ v : JsVal, onDirectStateTransitionReply v = onPrevStateReply v) ∧
    (∀ v : JsVal, (onPrevStateReply v).length = 1) ∧
    (∀ v : JsVal, truthy v = true → onPrevStateReply v = [(Status.Success, v)]) ∧
    (∀ v : JsVal, truthy v = false → onPrevStateReply v = [(Status.Failure, v)]) := by
  refine ⟨fun v => rfl, ?_, ?_, ?_⟩
  · intro v
    unfold onPrevStateReply
    by_cases h : truthy v = true <;> simp [h]
  · intro v h
    simp [onPrevStateReply, success, h]
  · intro v h
    simp [onPrevStateReply, error, h]

/-- Witness for C5 at the spec's example inputs: `available = "state-1"` maps
to `Success("state-1")` and `available = false` maps to `Failure(false)`. -/
theorem availability_reply_mapping_witness :
    onPrevStateReply (JsVal.str "state-1") = [(Status.Success, JsVal.str "state-1")] ∧
    onPrevStateReply (JsVal.boolean false) = [(Status.Failure, JsVal.boolean false)] :=
  ⟨availability_reply_mapping.2.2.1 (JsVal.str "state-1") (by decide),
   availability_reply_mapping.2.2.2 (JsVal.boolean false) (by decide)⟩

/-- Claim C6: the get-metadata and get-data handlers agree; for every resolved
reply they emit exactly one signal: `Success` carrying the `data` payload when
it is truthy (the sense in which the reply "carries a data payload" — see the
truthiness edge case below), `Failure` with payload `null` otherwise. -/
theorem dataPayload_reply_mapping :
    (∀ v : JsVal, onGetDataReply v = onGetMetadataReply v) ∧
    (∀ v : JsVal, (onGetMetadataReply v).length = 1) ∧
    (∀ v : JsVal, truthy v = true → onGetMetadataReply v = [(Status.Success, v)]) ∧
    (∀ v : JsVal, truthy v = false → onGetMetadataReply v = [(Status.Failure, JsVal.nullv)]) := by
  refine ⟨fun v => rfl, ?_, ?_, ?_⟩
  · intro v
    unfold onGetMetadataReply
    by_cases h : truthy v = true <;> simp [h]
  · intro v h
    simp [onGetMetadataReply, success, h]
  · intro v h
    simp [onGetMetadataReply, error, h]

/-- Witness for C6 at concrete inputs: an object payload maps to `Success`
carrying it; an absent payload maps to `Failure(null)`. -/
theorem dataPayload_reply_mapping_witness :
    onGetMetadataReply (JsVal.obj 7) = [(Status.Success, JsVal.obj 7)] ∧
    onGetMetadataReply JsVal.undef = [(Status.Failure, JsVal.nullv)] :=
  ⟨dataPayload_reply_mapping.2.2.1 (JsVal.obj 7) (by decide),
   dataPayload_reply_mapping.2.2.2 JsVal.undef (by decide)⟩

/-- A command kind never emits a `Failure` signal on any resolved reply. -/
def FailureFree (m : Message) : Prop :=
  ∀ (v : JsVal) (sp : Status × JsVal), sp ∈ onReply m v → sp.1 = Status.Success

/-- Counterexample to claim C7's parenthetical: list-symbols is NOT the only
command kind with no `Failure` path on a resolved reply — toggle-libraries
also never emits `Failure` (it unconditionally emits `Success(true)`). -/
theorem getSymbols_asymmetry_counterexample :
    ¬ (∀ m : Message, FailureFree m → m = Message.GetSymbols) := by
  intro h
  have hfree : FailureFree Message.ToggleLibs := by
    intro v sp hm
    simp [onReply, onToggleLibsReply, success] at hm
    simp [hm]
  exact Message.noConfusion (h Message.ToggleLibs hfree)

/-- Claim C7 as amended: on a resolved list-symbols reply, a truthy `symbols`
collection yields a single `Success` signal carrying it and an absent (falsy)
`symbols` field yields no signal at all; list-symbols never emits `Failure`,
and it is the only command kind whose handler can emit no signal on a
resolved reply.  (It is not the only kind without a `Failure` path:
toggle-libraries also has none.) -/
theorem getSymbols_asymmetry_amended :
    (∀ v : JsVal, truthy v = true → onGetSymbolsReply v = [(Status.Success, v)]) ∧
    (∀ v : JsVal, truthy v = false → onGetSymbolsReply v = []) ∧
    FailureFree Message.GetSymbols ∧
    (∀ m : Message, (∃ v : JsVal, onReply m v = []) → m = Message.GetSymbols) := by
  refine ⟨?_, ?_, ?_, ?_⟩
  · intro v h
    simp [onGetSymbolsReply, success, h]
  · intro v h
    simp [onGetSymbolsReply, h]
  · intro v sp hm
    unfold onReply onGetSymbolsReply at hm
    by_cases h : truthy v = true
    · simp [h, success] at hm
      simp [hm]
    · simp [h] at hm
  · intro m hm
    obtain ⟨v, hv⟩ := hm
    cases m <;>
      simp [onReply, onLoadProjectReply, onPrevStateReply, onDirectStateTransitionReply,
            onGetMetadataReply, onGetDataReply, onToggleLibsReply] at hv <;>
      first
        | rfl
        | (by_cases h : truthy v = true <;> simp [h] at hv)

/-- Witness for the amended C7 at concrete inputs: an object-valued `symbols`
collection yields `Success` carrying it; an `undefined` `symbols` field yields
no signal. -/
theorem getSymbols_asymmetry_witness :
    onGetSymbolsReply (JsVal.obj 3) = [(Status.Success, JsVal.obj 3)] ∧
    onGetSymbolsReply JsVal.undef = [] :=
  ⟨getSymbols_asymmetry_amended.1 (JsVal.obj 3) rfl,
   getSymbols_asymmetry_amended.2.1 JsVal.undef rfl⟩

/-- Counterexample to claim C8: on a REJECTED toggle-libraries round trip the
handler emits nothing — `.then` was given only a fulfillment callback — so it
is false that every settlement emits `Success(true)`. -/
theorem toggleLibs_settlement_counterexample :
    onSettlement Message.ToggleLibs (Except.error (JsVal.str "boom")) = [] ∧
    onSettlement Message.ToggleLibs (Except.error (JsVal.str "boom")) ≠
      [(Status.Success, JsVal.boolean true)] := by
  exact ⟨rfl, by simp [onSettlement]⟩

/-- Claim C8 as amended: on every RESOLUTION of the toggle-libraries round
trip, whatever the reply value, exactly `Success(true)` is emitted — there is
no failure outcome for this command; on a rejection no signal is emitted (the
rejection is absorbed by the queue). -/
theorem toggleLibs_settlement_amended :
    (∀ v : JsVal, onSettlement Message.ToggleLibs (Except.ok v) = [(Status.Success, JsVal.boolean true)]) ∧
    (∀ e : JsVal, onSettlement Message.ToggleLibs (Except.error e) = []) :=
  ⟨fun _ => rfl, fun _ => rfl⟩

/-- Claim C10: for get-metadata and get-data the success test is JavaScript
truthiness of the `data` field, not its presence: a present but falsy `data`
(empty string, 0, false, null) produces `Failure(null)`, not `Success`. -/
theorem dataPayload_truthiness_edge :
    onGetMetadataReply (JsVal.str "") = [(Status.Failure, JsVal.nullv)] ∧
    onGetMetadataReply (JsVal.number 0) = [(Status.Failure, JsVal.nullv)] ∧
    onGetMetadataReply (JsVal.boolean false) = [(Status.Failure, JsVal.nullv)] ∧
    onGetMetadataReply JsVal.nullv = [(Status.Failure, JsVal.nullv)] ∧
    onGetDataReply (JsVal.str "") = [(Status.Failure, JsVal.nullv)] ∧
    onGetDataReply (JsVal.number 0) = [(Status.Failure, JsVal.nullv)] ∧
    onGetDataReply (JsVal.boolean false) = [(Status.Failure, JsVal.nullv)] ∧
    onGetDataReply JsVal.nullv = [(Status.Failure, JsVal.nullv)] := by
  decide

/-- One external event of a `BackgroundApp` run: an ipc command arriving
(`Message.Config` answers synchronously with the static config; a queued
command's handler pushes its task, identified by `tid`, onto the task queue;
`Message.DisableExport` / `Message.EnableExport` toggle externally-owned menu
chrome and signal synchronously), or a running task settling. -/
inductive AppEv where
  | config
  | command (m : Message) (tid : Nat)
  | settle (tid : Nat) (ok : Bool)
  | disableExport
  | enableExport
deriving DecidableEq, Repr

/-- The `BackgroundApp` state after `init`: the task queue and
`private states: State[] = []`, the project state history (snapshots opaque,
modelled as tags).  The slave process handle and the ipc registrations carry
no further state relevant here. -/
structure BackgroundApp where
  taskQueue : TaskQueue
  states : List Nat
deriving DecidableEq, Repr

/-- The state `init(config)` sets up: a fresh `TaskQueue` and an empty
`states` array. -/
def BackgroundApp.init : BackgroundApp :=
  { taskQueue := TaskQueue.init, states := [] }

/-- One app event.  Each branch is the corresponding handler's effect on the
fields of `BackgroundApp`: the `Message.Config`, `Message.DisableExport` and
`Message.EnableExport` handlers only talk to the sender and the external
`menus` structure; each queued command's handler logs and calls
`this.taskQueue.push(...)`; a settlement drives the queue's continuations.
No branch of the source touches `this.states`. -/
def BackgroundApp.step (a : BackgroundApp) : AppEv → BackgroundApp
  | .config => a
  | .command _ tid => { a with taskQueue := a.taskQueue.push tid }
  | .settle tid ok => { a with taskQueue := a.taskQueue.onSettle tid ok }
  | .disableExport => a
  | .enableExport => a

/-- Run an app event list from the post-`init` state. -/
def BackgroundApp.run (es : List AppEv) : BackgroundApp :=
  es.foldl BackgroundApp.step BackgroundApp.init

/-- `get state(): State | undefined { return this.states[this.states.length - 1]; }` —
the last element of the history if any; on an empty history the JS index is
`-1` and the getter yields `undefined`, i.e. `none`. -/
def BackgroundApp.state (a : BackgroundApp) : Option Nat :=
  a.states.getLast?

/-- No app step changes the `states` history. -/
theorem BackgroundApp.run_states_eq (es : List AppEv) :
    ∀ a : BackgroundApp, (es.foldl BackgroundApp.step a).states = a.states := by
  induction es with
  | nil => intro a; rfl
  | cons e es ih =>
      intro a
      rw [List.foldl_cons, ih]
      cases e <;> rfl

/-- Claim C9: no operation of this core modifies the `states` sequence — it
starts empty after `init` and stays empty under every sequence of command
arrivals and task settlements — so the `state` getter returns `undefined`
(none) after every sequence of operations. -/
theorem states_never_modified :
    ∀ es : List AppEv,
      (BackgroundApp.run es).states = [] ∧ (BackgroundApp.run es).state = none := by
  intro es
  have h : (BackgroundApp.run es).states = [] := BackgroundApp.run_states_eq es BackgroundApp.init
  exact ⟨h, by simp [BackgroundApp.state, h]⟩
